/-
Verification of the SSO_Non-AD credential system against its specification.

The development shallowly embeds the JavaScript sources:
  * src/vault-service/src/routes/vault.js   (Vault Store handlers)
  * src/vault-service/src/middleware/validate.js
  * src/primary-identity/app.js and db.js   (Delegation Proxy)
  * src/primary-identity/vaultClient.js
  * src/sso-extension/background.js          (Background Coordinator)
  * src/sso-extension/content.js             (Page Agent)

Stateful handlers become pure functions from an explicit database or
session state to a response paired with the next state.  Each SQL query a
handler issues may fail; the `failAt` argument of a handler names the
index (in execution order) of the first failing query, `none` meaning a
failure-free run.  A non-transactional handler keeps the effects of the
queries that already ran; the update-password handler runs inside
BEGIN/COMMIT and rolls back to its starting state on any failure.
-/
import Mathlib

namespace SSO

/-! ## Credential field objects

A `fields` value is the open string-keyed map stored in the JSONB
`fields` column of `vault_credentials` (init.sql).  JavaScript object
keys are looked up by first occurrence. -/

abbrev Fields := List (String × String)

/-- Property lookup on a JS object / JSONB map. -/
def lookupField : Fields → String → Option String
  | [], _ => none
  | (k1, v1) :: rest, k => if k1 = k then some v1 else lookupField rest k

/-- JS object spread update, as in vault.js line 146:
the expression with dots existing.rows[0].fields followed by
password: newPassword replaces the value of an existing key in place and
appends the key at the end otherwise. -/
def setField : Fields → String → String → Fields
  | [], k, v => [(k, v)]
  | (k1, v1) :: rest, k, v =>
      if k1 = k then (k, v) :: rest else (k1, v1) :: setField rest k v

/-- Object.assign-style merge (db.js getVaultCredentials: extra fields are
assigned over the base username/password object, overwriting on clash). -/
def mergeAssign (base extra : Fields) : Fields :=
  extra.foldl (fun acc kv => setField acc kv.1 kv.2) base

/-- validate.js isNonEmptyString: the value is a string whose trim has
positive length, i.e. it contains a non-whitespace character. -/
def isNonEmptyString (s : String) : Bool :=
  s.data.any fun c => !c.isWhitespace

/-! ## Vault Store data model (init.sql) -/

/-- One row of the `vault_credentials` table: primary key
`(vault_id, app_id)`, JSONB `fields`, and the two timestamps. -/
structure CredRow where
  vaultId : String
  appId : String
  fields : Fields
  createdAt : Nat
  updatedAt : Nat
deriving DecidableEq

/-- One row of the append-only `audit_log` table (id and timestamp columns
omitted; they are never consulted by any handler). -/
structure AuditEntry where
  vaultId : String
  appId : String
  action : String
deriving DecidableEq

/-- The Vault Store database: credential rows plus the audit log. -/
structure VaultDB where
  creds : List CredRow
  audit : List AuditEntry
deriving DecidableEq

/-- SELECT ... WHERE vault_id = $1 AND app_id = $2 (at most one row exists
per key; the first match is returned). -/
def findRow : List CredRow → String → String → Option CredRow
  | [], _, _ => none
  | r :: rest, vid, aid =>
      if r.vaultId = vid ∧ r.appId = aid then some r else findRow rest vid aid

/-- INSERT ... ON CONFLICT (vault_id, app_id) DO UPDATE SET fields, updated_at
(vault.js write handler): replace the fields of the existing row keeping
created_at, or append a fresh row. -/
def upsertRow : List CredRow → String → String → Fields → Nat → List CredRow
  | [], vid, aid, f, now => [⟨vid, aid, f, now, now⟩]
  | r :: rest, vid, aid, f, now =>
      if r.vaultId = vid ∧ r.appId = aid then ⟨vid, aid, f, r.createdAt, now⟩ :: rest
      else r :: upsertRow rest vid aid f now

/-- UPDATE vault_credentials SET fields, updated_at WHERE vault_id AND app_id. -/
def updateRowFields (creds : List CredRow) (vid aid : String) (f : Fields) (now : Nat) :
    List CredRow :=
  creds.map fun r =>
    if r.vaultId = vid ∧ r.appId = aid then ⟨r.vaultId, r.appId, f, r.createdAt, now⟩ else r

/-- DELETE FROM vault_credentials WHERE vault_id = $1 AND app_id = $2. -/
def removeKey : List CredRow → String → String → List CredRow
  | [], _, _ => []
  | r :: rest, vid, aid =>
      if r.vaultId = vid ∧ r.appId = aid then removeKey rest vid aid
      else r :: removeKey rest vid aid

/-- DELETE FROM vault_credentials WHERE vault_id = $1. -/
def removeVault : List CredRow → String → List CredRow
  | [], _ => []
  | r :: rest, vid =>
      if r.vaultId = vid then removeVault rest vid else r :: removeVault rest vid

/-- rowCount of the delete-vault DELETE: how many rows carry this vault id. -/
def countVault : List CredRow → String → Nat
  | [], _ => 0
  | r :: rest, vid => (if r.vaultId = vid then 1 else 0) + countVault rest vid

/-- The JSON response shapes of the internal vault endpoints. -/
inductive VaultResponse where
  | fieldsOk (fields : Fields)
  | success
  | successCount (deletedCount : Nat)
  | notFound
  | badRequest
  | internalError
deriving DecidableEq

/-- POST /internal/vault/read (vault.js lines 64 to 89): validate, SELECT
fields (query 0), 404 when absent, audit INSERT (query 1), respond. -/
def readHandler (db : VaultDB) (vaultId appId : String) (failAt : Option Nat) :
    VaultResponse × VaultDB :=
  if !(isNonEmptyString vaultId && isNonEmptyString appId) then (.badRequest, db)
  else if failAt = some 0 then (.internalError, db)
  else
    match findRow db.creds vaultId appId with
    | none => (.notFound, db)
    | some r =>
        if failAt = some 1 then (.internalError, db)
        else (.fieldsOk r.fields, { db with audit := db.audit ++ [⟨vaultId, appId, "read"⟩] })

/-- POST /internal/vault/write (vault.js lines 95 to 120): validate, upsert
(query 0), audit INSERT (query 1), respond.  The two queries are separate
statements: a failing audit INSERT leaves the upsert in place. -/
def writeHandler (db : VaultDB) (vaultId appId : String) (fields : Fields) (now : Nat)
    (failAt : Option Nat) : VaultResponse × VaultDB :=
  if !(isNonEmptyString vaultId && isNonEmptyString appId) then (.badRequest, db)
  else if failAt = some 0 then (.internalError, db)
  else
    let db1 : VaultDB := { db with creds := upsertRow db.creds vaultId appId fields now }
    if failAt = some 1 then (.internalError, db1)
    else (.success, { db1 with audit := db1.audit ++ [⟨vaultId, appId, "write"⟩] })

/-- POST /internal/vault/update-password (vault.js lines 126 to 177):
BEGIN (query 0), SELECT ... FOR UPDATE (query 1), merge the password key,
UPDATE (query 2), audit INSERT (query 3), COMMIT (query 4).  Any failure
rolls the whole transaction back, so the database is unchanged. -/
def updatePasswordHandler (db : VaultDB) (vaultId appId newPassword : String) (now : Nat)
    (failAt : Option Nat) : VaultResponse × VaultDB :=
  if !(isNonEmptyString vaultId && isNonEmptyString appId && isNonEmptyString newPassword) then
    (.badRequest, db)
  else if failAt = some 0 then (.internalError, db)
  else if failAt = some 1 then (.internalError, db)
  else
    match findRow db.creds vaultId appId with
    | none => (.notFound, db)
    | some r =>
        if failAt = some 2 then (.internalError, db)
        else if failAt = some 3 then (.internalError, db)
        else if failAt = some 4 then (.internalError, db)
        else
          (.success,
            ⟨updateRowFields db.creds vaultId appId (setField r.fields "password" newPassword) now,
             db.audit ++ [⟨vaultId, appId, "update"⟩]⟩)

/-- POST /internal/vault/delete (vault.js lines 183 to 209): validate,
DELETE (query 0), 404 when rowCount is zero, audit INSERT (query 1). -/
def deleteHandler (db : VaultDB) (vaultId appId : String) (failAt : Option Nat) :
    VaultResponse × VaultDB :=
  if !(isNonEmptyString vaultId && isNonEmptyString appId) then (.badRequest, db)
  else if failAt = some 0 then (.internalError, db)
  else
    match findRow db.creds vaultId appId with
    | none => (.notFound, db)
    | some _ =>
        let db1 : VaultDB := { db with creds := removeKey db.creds vaultId appId }
        if failAt = some 1 then (.internalError, db1)
        else (.success, { db1 with audit := db1.audit ++ [⟨vaultId, appId, "delete"⟩] })

/-- POST /internal/vault/delete-vault (vault.js lines 215 to 237): validate,
DELETE by vault_id (query 0), audit INSERT with the sentinel app_id "*"
(query 1), respond with the deleted row count. -/
def deleteVaultHandler (db : VaultDB) (vaultId : String) (failAt : Option Nat) :
    VaultResponse × VaultDB :=
  if !(isNonEmptyString vaultId) then (.badRequest, db)
  else if failAt = some 0 then (.internalError, db)
  else
    let db1 : VaultDB := { db with creds := removeVault db.creds vaultId }
    if failAt = some 1 then (.internalError, db1)
    else
      (.successCount (countVault db.creds vaultId),
       { db1 with audit := db1.audit ++ [⟨vaultId, "*", "delete-vault"⟩] })

/-- The five credential operations of the Vault Store, with their inputs. -/
inductive VaultOp where
  | readOp (vaultId appId : String)
  | writeOp (vaultId appId : String) (fields : Fields) (now : Nat)
  | updatePasswordOp (vaultId appId newPassword : String) (now : Nat)
  | deleteOp (vaultId appId : String)
  | deleteVaultOp (vaultId : String)
deriving DecidableEq

/-- Dispatch an operation to its route handler. -/
def runOp (db : VaultDB) (op : VaultOp) (failAt : Option Nat) : VaultResponse × VaultDB :=
  match op with
  | .readOp v a => readHandler db v a failAt
  | .writeOp v a f t => writeHandler db v a f t failAt
  | .updatePasswordOp v a p t => updatePasswordHandler db v a p t failAt
  | .deleteOp v a => deleteHandler db v a failAt
  | .deleteVaultOp v => deleteVaultHandler db v failAt

/-- The audit entry each operation records on success. -/
def opAuditEntry : VaultOp → AuditEntry
  | .readOp v a => ⟨v, a, "read"⟩
  | .writeOp v a _ _ => ⟨v, a, "write"⟩
  | .updatePasswordOp v a _ _ => ⟨v, a, "update"⟩
  | .deleteOp v a => ⟨v, a, "delete"⟩
  | .deleteVaultOp v => ⟨v, "*", "delete-vault"⟩

/-- Whether a response reports success (HTTP 2xx). -/
def respSuccess : VaultResponse → Bool
  | .fieldsOk _ => true
  | .success => true
  | .successCount _ => true
  | _ => false

/-! ## Delegation Proxy: Primary Identity service (app.js, db.js)

The proxy state is the SQLite database of the identity service.  The
vault credential table below is the one the GET /api/vault/credentials
handler consults through db.getVaultCredentials. -/

/-- One row of `plugin_tokens`. -/
structure TokenRow where
  token : String
  userId : Nat
  scopes : List String
  expiresAt : Nat
deriving DecidableEq

/-- One row of `users` (id, username, role). -/
structure UserRow where
  id : Nat
  username : String
  role : String
deriving DecidableEq

/-- One row of `apps` (internal id, public appId, origin). -/
structure PidApp where
  id : Nat
  appId : String
  origin : String
deriving DecidableEq

/-- One row of `vault_credentials` in the identity service database
(user_id, internal app id, app_username, app_password, extra_fields). -/
structure PidCredRow where
  userId : Nat
  appId : Nat
  appUsername : String
  appPassword : String
  extraFields : Option Fields
deriving DecidableEq

/-- The identity service database, restricted to the tables the delegated
credential path reads. -/
structure PidDb where
  users : List UserRow
  apps : List PidApp
  userApps : List (Nat × Nat)
  pluginTokens : List TokenRow
  vaultCreds : List PidCredRow
deriving DecidableEq

/-- Result of db.introspectToken. -/
inductive Introspection where
  | inactive (error : String)
  | active (userId : Nat) (username : String) (scopes : List String)
deriving DecidableEq

/-- db.findUserById. -/
def findUserById (d : PidDb) (id : Nat) : Option UserRow :=
  d.users.find? fun u => u.id == id

/-- db.introspectToken (db.js): missing token row, expiry (now strictly
past expires_at deletes the row), missing user, else active with the
stored scopes. -/
def introspectToken (d : PidDb) (tok : String) (now : Nat) : Introspection × PidDb :=
  match d.pluginTokens.find? (fun r => r.token == tok) with
  | none => (.inactive "Token not found", d)
  | some row =>
      if row.expiresAt < now then
        (.inactive "Token expired",
         { d with pluginTokens := d.pluginTokens.filter fun r => !(r.token == tok) })
      else
        match findUserById d row.userId with
        | none => (.inactive "User not found", d)
        | some u => (.active row.userId u.username row.scopes, d)

/-- db.isUserAllowedApp: the app exists and a user_apps mapping row exists. -/
def isUserAllowedApp (d : PidDb) (userId : Nat) (appId : String) : Bool :=
  match d.apps.find? (fun a => a.appId == appId) with
  | none => false
  | some app => (d.userApps.find? fun m => m.1 == userId && m.2 == app.id).isSome

/-- db.getVaultCredentials: resolve the app, find the credential row, build
the extensible fields object and assign any extra fields over it. -/
def getVaultCredentials (d : PidDb) (userId : Nat) (appId : String) : Option Fields :=
  match d.apps.find? (fun a => a.appId == appId) with
  | none => none
  | some app =>
      match d.vaultCreds.find? (fun c => c.userId == userId && c.appId == app.id) with
      | none => none
      | some row =>
          let base : Fields := [("username", row.appUsername), ("password", row.appPassword)]
          match row.extraFields with
          | none => some base
          | some extra => some (mergeAssign base extra)

/-- Response shapes of the delegated credential API. -/
inductive ApiResp where
  | ok (fields : Fields)
  | badRequestA (error : String)
  | unauthorized (error : String)
  | forbidden (error : String)
  | notFoundA (error : String)
deriving DecidableEq

/-- Outcome of one GET /api/vault/credentials request: the HTTP response,
the database afterwards, and whether the credential table was consulted
(the instrumentation records that the handler reached the vault lookup). -/
structure GetCredsOutcome where
  resp : ApiResp
  db : PidDb
  vaultConsulted : Bool
deriving DecidableEq

/-- requireBearerToken header parsing: the Authorization header must start
with the Bearer marker; the remainder of the header is the token. -/
def bearerToken (authHeader : Option String) : Option String :=
  match authHeader with
  | none => none
  | some h =>
      if "Bearer ".data.isPrefixOf h.data then some (String.mk (h.data.drop 7)) else none

/-- GET /api/vault/credentials (app.js lines 453 to 485) behind
requireBearerToken (lines 61 to 76): bearer header, token introspection
(including expiry), appId presence, per-app authorization, scope check,
then and only then the vault credential lookup. -/
def getCredentialsHandler (d : PidDb) (authHeader : Option String) (appIdParam : Option String)
    (now : Nat) : GetCredsOutcome :=
  match bearerToken authHeader with
  | none => ⟨.unauthorized "Missing or invalid Authorization header", d, false⟩
  | some tok =>
      match introspectToken d tok now with
      | (.inactive e, d1) => ⟨.unauthorized e, d1, false⟩
      | (.active userId _ scopes, d1) =>
          match appIdParam with
          | none => ⟨.badRequestA "appId query parameter is required", d1, false⟩
          | some appId =>
              if appId = "" then ⟨.badRequestA "appId query parameter is required", d1, false⟩
              else if !isUserAllowedApp d1 userId appId then
                ⟨.forbidden "User not authorized for this app", d1, false⟩
              else if !(scopes.contains "vault:read") then
                ⟨.forbidden "Token does not have vault:read scope", d1, false⟩
              else
                match getVaultCredentials d1 userId appId with
                | none => ⟨.notFoundA "No credentials found for this app", d1, true⟩
                | some fields => ⟨.ok fields, d1, true⟩

/-- background.js fetchCredentials: a 404 becomes null (first-time login),
any other failure becomes null, a 200 yields the credential object. -/
def fetchCredentialsResult (resp : ApiResp) : Option Fields :=
  match resp with
  | .ok f => some f
  | _ => none

/-! ## Extension message responses and login schemas -/

/-- One entry of a login schema: CSS selector and field kind. -/
structure FieldSpec where
  selector : String
  fieldType : String
deriving DecidableEq

/-- AppDescriptor login_schema: ordered map from logical field name to
selector and kind. -/
abbrev LoginSchema := List (String × FieldSpec)

/-- The getCredentials message response sent to the content script
(background.js message handler, getCredentials case). -/
structure PageResponse where
  success : Bool
  needsLearning : Bool
  credentials : Option Fields
  loginSchema : Option LoginSchema
deriving DecidableEq

/-- background.js getCredentials steps 4 and on: a null fetch result turns
into a needsLearning response carrying the login schema, a credential
object into a success response. -/
def bgHandleGetCredentials (apiResp : ApiResp) (schema : Option LoginSchema) : PageResponse :=
  match fetchCredentialsResult apiResp with
  | none => ⟨false, true, none, schema⟩
  | some f => ⟨true, false, some f, schema⟩

/-! ## Identity deletion cascade (db.js, vault-integrated revision)

The vault-integrated revision of db.js gives each user a `vault_id` and
makes deleteUser call vaultClient.deleteVault before touching any local
table. -/

/-- One row of `users` in the vault-integrated revision (vault_id added). -/
structure UserRow2 where
  id : Nat
  username : String
  role : String
  vaultId : Option String
deriving DecidableEq

/-- The local tables deleteUser touches. -/
structure PidDb2 where
  users : List UserRow2
  userApps : List (Nat × Nat)
  pluginTokens : List TokenRow
deriving DecidableEq

/-- Result shape of db.deleteUser. -/
inductive DeleteUserResult where
  | okD
  | errD (error : String)
deriving DecidableEq

/-- db.findUserById in the vault-integrated revision. -/
def findUserById2 (d : PidDb2) (id : Nat) : Option UserRow2 :=
  d.users.find? fun u => u.id == id

/-- db.getVaultId: the vault_id column of the user row, when both exist. -/
def getVaultId (d : PidDb2) (id : Nat) : Option String :=
  match findUserById2 d id with
  | none => none
  | some u => u.vaultId

/-- vaultClient.deleteVault composed with the vault-service delete-vault
handler.  `netOk = false` models a network error or timeout in which the
request never reaches the Vault Store (the catch branch of vaultRequest:
success false, status 503); otherwise the HTTP status of the handler
decides success (2xx true, anything else false, per vaultRequest). -/
def deleteVaultCall (vdb : VaultDB) (vid : String) (netOk : Bool) (failAt : Option Nat) :
    Bool × VaultDB :=
  if !netOk then (false, vdb)
  else
    match deleteVaultHandler vdb vid failAt with
    | (.successCount _, vdb1) => (true, vdb1)
    | (_, vdb1) => (false, vdb1)

/-- The three local DELETE statements at the end of deleteUser. -/
def localDeleteUserRows (d : PidDb2) (id : Nat) : PidDb2 :=
  { users := d.users.filter fun u => !(u.id == id),
    userApps := d.userApps.filter fun m => !(m.1 == id),
    pluginTokens := d.pluginTokens.filter fun t => !(t.userId == id) }

/-- db.deleteUser (db.js lines 755 to 779): refuse admin deletion; fetch
the vault_id and call deleteVault first; on cascade failure return an
error with no local row removed; on success (or when the user has no
vault_id) delete user_apps, plugin_tokens and the user row. -/
def deleteUser (d : PidDb2) (vdb : VaultDB) (id : Nat) (netOk : Bool) (failAt : Option Nat) :
    DeleteUserResult × PidDb2 × VaultDB :=
  let isAdmin : Bool :=
    match findUserById2 d id with
    | some u => u.role == "admin"
    | none => false
  if isAdmin then (.errD "Cannot delete admin users", d, vdb)
  else
    match getVaultId d id with
    | some vid =>
        match deleteVaultCall vdb vid netOk failAt with
        | (false, vdb1) => (.errD "Failed to delete vault credentials", d, vdb1)
        | (true, vdb1) => (.okD, localDeleteUserRows d id, vdb1)
    | none => (.okD, localDeleteUserRows d id, vdb)

/-! ## Background Coordinator (background.js) -/

/-- One entry of the app list held by the coordinator. -/
structure AppInfo where
  appId : String
  origin : String
  loginSchema : Option LoginSchema
deriving DecidableEq

/-- The in-memory state object of background.js. -/
structure BgState where
  pluginToken : Option String
  expiresAt : Option Nat
  apps : List AppInfo
  currentUserId : Option Nat
  currentUsername : Option String
deriving DecidableEq

/-- The JSON body of a successful POST /api/plugin/bootstrap response. -/
structure BootstrapData where
  pluginToken : String
  expiresIn : Nat
  userId : Nat
  username : String
  apps : List AppInfo
deriving DecidableEq

/-- The cleared state written by the user-switch branch of bootstrap. -/
def clearedBgState : BgState := ⟨none, none, [], none, none⟩

/-- background.js bootstrap (lines 47 to 90), success path: when a user was
held and the response reports a different userId, clear every state field;
then install the token, expiry, app list and user identity of the
response. -/
def bootstrapStep (st : BgState) (data : BootstrapData) (now : Nat) : BgState :=
  let st1 :=
    if st.currentUserId ≠ none ∧ st.currentUserId ≠ some data.userId then clearedBgState else st
  { st1 with
    pluginToken := some data.pluginToken,
    expiresAt := some (now + data.expiresIn * 1000),
    apps := data.apps,
    currentUserId := some data.userId,
    currentUsername := some data.username }

/-- The Authorization header fetchCredentials sends: none when no token is
held (the guard returns null), otherwise the Bearer header built from the
held token. -/
def fetchAuthHeader (st : BgState) : Option String :=
  match st.pluginToken with
  | none => none
  | some t => some ("Bearer " ++ t)

/-- Modelled from the spec: section 3 defines VerifiedAppSet, the set of
applications that passed local presence verification this browser
session, and section 4.3 says the identity-switch reset discards every
per-application verification marker.  No code in src/sso-extension
implements or stores such a set (the local-verification feature appears
only in the design notes), so it is carried here as an extra
session-scoped component next to the in-memory coordinator state. -/
structure ExtensionState where
  bg : BgState
  verifiedApps : List String
deriving DecidableEq

/-- A bootstrap round at the level of the whole extension state: the code
of bootstrap touches only the in-memory state object, so the
(spec-modelled) verification set passes through unchanged. -/
def bootstrapExt (st : ExtensionState) (data : BootstrapData) (now : Nat) : ExtensionState :=
  { st with bg := bootstrapStep st.bg data now }

/-! ## Page Agent (content.js, schema-driven revision) -/

/-- The sessionStorage value under sso_learning_credentials. -/
structure LearningCapture where
  fields : Fields
  origin : String
deriving DecidableEq

/-- The sessionStorage value under sso_login_schema. -/
structure SchemaCapture where
  schema : LoginSchema
  origin : String
deriving DecidableEq

/-- The sessionStorage value under sso_password_change. -/
structure PwdChangeCapture where
  newPassword : String
  origin : String
deriving DecidableEq

/-- The page-scoped marker slots of content.js.  The autoLoginAttempt slot
is modelled from the spec (section 3, AutoLoginAttemptFlag with its
origin): no statement in content.js reads or writes any such marker, so
every source-derived transition leaves it untouched. -/
structure MarkerStore where
  learning : Option LearningCapture
  schemaMarker : Option SchemaCapture
  pwdChange : Option PwdChangeCapture
  autoLoginAttempt : Option String
deriving DecidableEq

/-- content.js getLearningCredentials (lines 436 to 443): parse the stored
marker and return it only when its origin equals the current origin. -/
def getLearningCredentials (store : MarkerStore) (currentOrigin : String) :
    Option LearningCapture :=
  match store.learning with
  | none => none
  | some parsed => if parsed.origin = currentOrigin then some parsed else none

/-- content.js getLoginSchema: same origin guard for the schema marker. -/
def getLoginSchemaMarker (store : MarkerStore) (currentOrigin : String) : Option LoginSchema :=
  match store.schemaMarker with
  | none => none
  | some parsed => if parsed.origin = currentOrigin then some parsed.schema else none

/-- content.js getPasswordChangeData (lines 741 to 747): parse the stored
marker and return it only when its origin equals the current origin. -/
def getPasswordChangeData (store : MarkerStore) (currentOrigin : String) :
    Option PwdChangeCapture :=
  match store.pwdChange with
  | none => none
  | some parsed => if parsed.origin = currentOrigin then some parsed else none

/-- The page as the agent observes it on one load, together with the
background response and the user decisions the flow may ask for. -/
structure PageEnv where
  currentOrigin : String
  store : MarkerStore
  hasPwdChangeForm : Bool
  hasLoginForm : Bool
  bgResponse : PageResponse
  promptChoice : Option String
  consentUpdate : Bool
  consentSave : Bool
deriving DecidableEq

/-- What one run of the content script main flow did at load time: the
marker store afterwards, the messages sent to the coordinator, whether
the saved-credentials prompt was shown, whether the agent filled and
submitted the login form, and which submit-capture listeners were armed. -/
structure AgentOutcome where
  store : MarkerStore
  sentUpdate : Option String
  sentSave : Option Fields
  prompted : Bool
  submitted : Bool
  learningArmed : Bool
  pwdCaptureArmed : Bool
deriving DecidableEq

/-- content.js checkPasswordChangeSuccess: a pending same-origin capture is
always cleared; the update message is sent only when the change form is
gone and the user consents. -/
def checkPasswordChangeSuccess (currentOrigin : String) (store : MarkerStore)
    (hasPwdChangeForm : Bool) (consentUpdate : Bool) : MarkerStore × Option String :=
  match getPasswordChangeData store currentOrigin with
  | none => (store, none)
  | some data =>
      if hasPwdChangeForm then ({ store with pwdChange := none }, none)
      else if consentUpdate then ({ store with pwdChange := none }, some data.newPassword)
      else ({ store with pwdChange := none }, none)

/-- content.js checkLearningSuccess: a pending same-origin capture is
always cleared together with the schema marker; the save message is sent
only when no login form remains and the user consents. -/
def checkLearningSuccess (currentOrigin : String) (store : MarkerStore)
    (hasLoginForm : Bool) (consentSave : Bool) : MarkerStore × Option Fields :=
  match getLearningCredentials store currentOrigin with
  | none => (store, none)
  | some captured =>
      if hasLoginForm then ({ store with learning := none, schemaMarker := none }, none)
      else if consentSave then
        ({ store with learning := none, schemaMarker := none }, some captured.fields)
      else ({ store with learning := none, schemaMarker := none }, none)

/-- content.js enterLearningMode, load-time effects: persist the received
schema (when present) keyed by origin, and arm the submit capture
listener when a login form is on the page. -/
def enterLearningMode (currentOrigin : String) (store : MarkerStore)
    (loginSchema : Option LoginSchema) (hasLoginForm : Bool) : MarkerStore × Bool :=
  let store1 :=
    match loginSchema with
    | some s => { store with schemaMarker := some ⟨s, currentOrigin⟩ }
    | none => store
  (store1, hasLoginForm)

/-- fillLoginFormWithSchema: at least one schema field has a non-empty
value among the credential fields (the selectors of the schema target the
login form, which is present on this branch). -/
def schemaFillSucceeds (schema : LoginSchema) (f : Fields) : Bool :=
  schema.any fun kv =>
    match lookupField f kv.1 with
    | none => false
    | some v => !(v == "")

/-- content.js main (lines 816 to 912), one page load: password-change
success check first; then the password-change form branch; then, with no
login form, the learning success check; with a login form, the
getCredentials round trip, the saved-credentials prompt (auto-login,
manual, update) and the chosen action. -/
def agentMain (env : PageEnv) : AgentOutcome :=
  let step1 :=
    checkPasswordChangeSuccess env.currentOrigin env.store env.hasPwdChangeForm env.consentUpdate
  let store1 := step1.1
  let sentUpd := step1.2
  if env.hasPwdChangeForm then
    ⟨store1, sentUpd, none, false, false, false, true⟩
  else if !env.hasLoginForm then
    let step2 := checkLearningSuccess env.currentOrigin store1 env.hasLoginForm env.consentSave
    ⟨step2.1, sentUpd, step2.2, false, false, false, false⟩
  else
    let resp := env.bgResponse
    if !resp.success then
      if resp.needsLearning then
        let step3 := enterLearningMode env.currentOrigin store1 resp.loginSchema true
        ⟨step3.1, sentUpd, none, false, false, step3.2, false⟩
      else ⟨store1, sentUpd, none, false, false, false, false⟩
    else
      if env.promptChoice = some "2" then ⟨store1, sentUpd, none, true, false, false, false⟩
      else if env.promptChoice = some "3" then
        let step3 := enterLearningMode env.currentOrigin store1 resp.loginSchema true
        ⟨step3.1, sentUpd, none, true, false, step3.2, false⟩
      else
        let filled :=
          match resp.loginSchema, resp.credentials with
          | some schema, some f => schemaFillSucceeds schema f
          | _, _ => true
        ⟨store1, sentUpd, none, true, filled, false, false⟩

/-! ## Concrete demonstration states (used by witnesses) -/

/-- A small identity-service database: one user holding a fresh live
token with both vault scopes, one registered app assigned to the user,
and no stored credential yet. -/
def pidDemo : PidDb :=
  { users := [⟨1, "testuser", "user"⟩],
    apps := [⟨10, "app_a", "http://localhost:3001"⟩],
    userApps := [(1, 10)],
    pluginTokens := [⟨"ptk_x", 1, ["vault:read", "vault:write"], 9999⟩],
    vaultCreds := [] }

/-- A local identity database for the vault-integrated revision: one
deletable user with a vault id, one app assignment and one live token. -/
def pid2Demo : PidDb2 :=
  { users := [⟨2, "testuser", "user", some "vault_2"⟩],
    userApps := [(2, 10)],
    pluginTokens := [⟨"ptk_y", 2, ["vault:read", "vault:write"], 9999⟩] }

/-- A Vault Store holding two credential rows for vault_2. -/
def vdbDemo : VaultDB :=
  { creds := [⟨"vault_2", "app_a", [("username", "u"), ("password", "p")], 0, 0⟩,
      ⟨"vault_2", "app_b", [("username", "u"), ("password", "q")], 0, 0⟩],
    audit := [] }

/-! ## Lemmas about field maps and the credential table -/

theorem lookupField_setField_self (f : Fields) (k v : String) :
    lookupField (setField f k v) k = some v := by
  induction f with
  | nil => simp [setField, lookupField]
  | cons p rest ih =>
      obtain ⟨k1, v1⟩ := p
      by_cases h : k1 = k
      · simp [setField, h, lookupField]
      · simp [setField, h, lookupField, ih]

theorem lookupField_setField_ne (f : Fields) (k v k2 : String) (h : k2 ≠ k) :
    lookupField (setField f k v) k2 = lookupField f k2 := by
  induction f with
  | nil => simp [setField, lookupField, Ne.symm h]
  | cons p rest ih =>
      obtain ⟨k1, v1⟩ := p
      by_cases h1 : k1 = k
      · subst h1
        simp [setField, lookupField, Ne.symm h]
      · simp [setField, h1, lookupField, ih]

theorem findRow_upsert_self (creds : List CredRow) (vid aid : String) (f : Fields) (now : Nat) :
    ∃ c, findRow (upsertRow creds vid aid f now) vid aid = some ⟨vid, aid, f, c, now⟩ := by
  induction creds with
  | nil => exact ⟨now, by simp [upsertRow, findRow]⟩
  | cons r rest ih =>
      by_cases h : r.vaultId = vid ∧ r.appId = aid
      · exact ⟨r.createdAt, by simp [upsertRow, h, findRow]⟩
      · obtain ⟨c, hc⟩ := ih
        exact ⟨c, by simp [upsertRow, h, findRow, hc]⟩

theorem findRow_updateRowFields_self (creds : List CredRow) (vid aid : String) (f : Fields)
    (now : Nat) (r : CredRow) (h : findRow creds vid aid = some r) :
    findRow (updateRowFields creds vid aid f now) vid aid =
      some ⟨vid, aid, f, r.createdAt, now⟩ := by
  induction creds with
  | nil => simp [findRow] at h
  | cons r0 rest ih =>
      by_cases h0 : r0.vaultId = vid ∧ r0.appId = aid
      · obtain ⟨h1, h2⟩ := h0
        rw [findRow] at h
        simp [h1, h2] at h
        subst h
        simp [updateRowFields, findRow, h1, h2]
      · rw [findRow] at h
        simp [h0] at h
        have := ih h
        simpa [updateRowFields, findRow, h0] using this

theorem findRow_removeKey_self (creds : List CredRow) (vid aid : String) :
    findRow (removeKey creds vid aid) vid aid = none := by
  induction creds with
  | nil => simp [removeKey, findRow]
  | cons r rest ih =>
      by_cases h : r.vaultId = vid ∧ r.appId = aid
      · simp [removeKey, h, ih]
      · simp [removeKey, h, findRow, ih]

theorem findRow_removeVault (creds : List CredRow) (vid aid : String) :
    findRow (removeVault creds vid) vid aid = none := by
  induction creds with
  | nil => simp [removeVault, findRow]
  | cons r rest ih =>
      by_cases h : r.vaultId = vid
      · simp [removeVault, h, ih]
      · simp [removeVault, h, findRow, ih]

theorem mem_removeVault (creds : List CredRow) (vid : String) (c : CredRow) :
    c ∈ removeVault creds vid ↔ c ∈ creds ∧ c.vaultId ≠ vid := by
  induction creds with
  | nil => simp [removeVault]
  | cons r rest ih =>
      by_cases h : r.vaultId = vid
      · rw [removeVault]
        simp only [h, if_true, ih, List.mem_cons]
        constructor
        · rintro ⟨hc, hne⟩
          exact ⟨Or.inr hc, hne⟩
        · rintro ⟨rfl | hc, hne⟩
          · exact absurd h hne
          · exact ⟨hc, hne⟩
      · rw [removeVault]
        simp only [h, if_false, List.mem_cons, ih]
        constructor
        · rintro (rfl | ⟨hc, hne⟩)
          · exact ⟨Or.inl rfl, h⟩
          · exact ⟨Or.inr hc, hne⟩
        · rintro ⟨rfl | hc, hne⟩
          · exact Or.inl rfl
          · exact Or.inr ⟨hc, hne⟩

theorem countVault_add_length (creds : List CredRow) (vid : String) :
    countVault creds vid + (removeVault creds vid).length = creds.length := by
  induction creds with
  | nil => simp [countVault, removeVault]
  | cons r rest ih =>
      by_cases h : r.vaultId = vid
      · simp only [countVault, removeVault, h, if_true, List.length_cons]
        omega
      · simp only [countVault, removeVault, h, if_false, List.length_cons]
        omega

/-- Shared lemma: two sequential updatePassword calls on a present key
both succeed; the final fields carry the second password and are
otherwise those the key held initially. -/
theorem updatePassword_twice (db : VaultDB) (vid aid qa qb : String) (ta tb : Nat) (F : Fields)
    (hv : isNonEmptyString vid = true) (ha : isNonEmptyString aid = true)
    (hqa : isNonEmptyString qa = true) (hqb : isNonEmptyString qb = true)
    (hF : (findRow db.creds vid aid).map CredRow.fields = some F) :
    (updatePasswordHandler db vid aid qa ta none).1 = .success ∧
    (updatePasswordHandler (updatePasswordHandler db vid aid qa ta none).2 vid aid qb tb
        none).1 = .success ∧
    ((findRow (updatePasswordHandler (updatePasswordHandler db vid aid qa ta none).2 vid aid qb
        tb none).2.creds vid aid).map CredRow.fields) =
      some (setField (setField F "password" qa) "password" qb) := by
  obtain ⟨r, hr, hrf⟩ := Option.map_eq_some'.mp hF
  subst hrf
  have h1 := findRow_updateRowFields_self db.creds vid aid (setField r.fields "password" qa) ta
    r hr
  refine ⟨?_, ?_, ?_⟩
  · simp [updatePasswordHandler, hv, ha, hqa, hr]
  · simp [updatePasswordHandler, hv, ha, hqa, hqb, hr, h1]
  · have h2 := findRow_updateRowFields_self
      (updateRowFields db.creds vid aid (setField r.fields "password" qa) ta) vid aid
      (setField (setField r.fields "password" qa) "password" qb) tb
      ⟨vid, aid, setField r.fields "password" qa, r.createdAt, ta⟩ h1
    simp [updatePasswordHandler, hv, ha, hqa, hqb, hr, h1, h2]

/-! ## Claim theorems -/

/-- C1: on a key holding a record with fields F, a successful
updatePassword followed by a read returns F with only the password key
replaced by the new password (every other key is unchanged, present or
absent alike), and updatePassword on a key with no record returns
NotFound leaving the database untouched. -/
theorem updatePassword_replaces_only_password (db : VaultDB) (vid aid p2 : String) (now : Nat)
    (F : Fields)
    (hv : isNonEmptyString vid = true) (ha : isNonEmptyString aid = true)
    (hp : isNonEmptyString p2 = true) :
    (findRow db.creds vid aid = none →
        updatePasswordHandler db vid aid p2 now none = (.notFound, db)) ∧
    ((findRow db.creds vid aid).map CredRow.fields = some F →
        ∃ F2,
          (readHandler (updatePasswordHandler db vid aid p2 now none).2 vid aid none).1 =
            .fieldsOk F2 ∧
          lookupField F2 "password" = some p2 ∧
          ∀ k, k ≠ "password" → lookupField F2 k = lookupField F k) := by
  constructor
  · intro hnone
    simp [updatePasswordHandler, hv, ha, hp, hnone]
  · intro hF
    obtain ⟨r, hr, hrf⟩ := Option.map_eq_some'.mp hF
    subst hrf
    have h1 := findRow_updateRowFields_self db.creds vid aid
      (setField r.fields "password" p2) now r hr
    refine ⟨setField r.fields "password" p2, ?_, ?_, ?_⟩
    · simp [updatePasswordHandler, hv, ha, hp, hr, readHandler, h1]
    · exact lookupField_setField_self r.fields "password" p2
    · intro k hk
      exact lookupField_setField_ne r.fields "password" p2 k hk

/-- C1 witness: a concrete record with username and role keeps both while
the password becomes p2. -/
theorem updatePassword_replaces_only_password_witness :
    ∃ F2,
      (readHandler (updatePasswordHandler
          ⟨[⟨"v1", "app_a", [("username", "u"), ("role", "admin"), ("password", "p")], 0, 0⟩],
            []⟩ "v1" "app_a" "p2" 1 none).2 "v1" "app_a" none).1 = .fieldsOk F2 ∧
      lookupField F2 "password" = some "p2" ∧
      ∀ k, k ≠ "password" →
        lookupField F2 k =
          lookupField [("username", "u"), ("role", "admin"), ("password", "p")] k :=
  (updatePassword_replaces_only_password
      ⟨[⟨"v1", "app_a", [("username", "u"), ("role", "admin"), ("password", "p")], 0, 0⟩], []⟩
      "v1" "app_a" "p2" 1 [("username", "u"), ("role", "admin"), ("password", "p")]
      (by decide) (by decide) (by decide)).2 (by decide)

/-- C3: the row lock taken by SELECT ... FOR UPDATE inside the
update-password transaction serializes two concurrent calls on the same
key, so the observable outcomes are exactly the two serial orders; in
either order both calls succeed and the key ends with the password of the
call serialized second (hence exactly one of the two submitted
passwords), with every non-password field intact. -/
theorem updatePassword_concurrent_no_merge (db : VaultDB) (vid aid p1 p2 : String)
    (now1 now2 : Nat) (F : Fields)
    (hv : isNonEmptyString vid = true) (ha : isNonEmptyString aid = true)
    (hp1 : isNonEmptyString p1 = true) (hp2 : isNonEmptyString p2 = true)
    (hF : (findRow db.creds vid aid).map CredRow.fields = some F) :
    ((updatePasswordHandler db vid aid p1 now1 none).1 = .success ∧
     (updatePasswordHandler (updatePasswordHandler db vid aid p1 now1 none).2 vid aid p2 now2
        none).1 = .success ∧
     ∃ F2,
       (findRow (updatePasswordHandler (updatePasswordHandler db vid aid p1 now1 none).2 vid
           aid p2 now2 none).2.creds vid aid).map CredRow.fields = some F2 ∧
       lookupField F2 "password" = some p2 ∧
       (lookupField F2 "password" = some p1 ∨ lookupField F2 "password" = some p2) ∧
       ∀ k, k ≠ "password" → lookupField F2 k = lookupField F k) ∧
    ((updatePasswordHandler db vid aid p2 now2 none).1 = .success ∧
     (updatePasswordHandler (updatePasswordHandler db vid aid p2 now2 none).2 vid aid p1 now1
        none).1 = .success ∧
     ∃ F2,
       (findRow (updatePasswordHandler (updatePasswordHandler db vid aid p2 now2 none).2 vid
           aid p1 now1 none).2.creds vid aid).map CredRow.fields = some F2 ∧
       lookupField F2 "password" = some p1 ∧
       (lookupField F2 "password" = some p1 ∨ lookupField F2 "password" = some p2) ∧
       ∀ k, k ≠ "password" → lookupField F2 k = lookupField F k) := by
  constructor
  · obtain ⟨s1, s2, h3⟩ := updatePassword_twice db vid aid p1 p2 now1 now2 F hv ha hp1 hp2 hF
    refine ⟨s1, s2, setField (setField F "password" p1) "password" p2, h3,
      lookupField_setField_self _ "password" p2,
      Or.inr (lookupField_setField_self _ "password" p2), ?_⟩
    intro k hk
    rw [lookupField_setField_ne _ "password" p2 k hk,
      lookupField_setField_ne _ "password" p1 k hk]
  · obtain ⟨s1, s2, h3⟩ := updatePassword_twice db vid aid p2 p1 now2 now1 F hv ha hp2 hp1 hF
    refine ⟨s1, s2, setField (setField F "password" p2) "password" p1, h3,
      lookupField_setField_self _ "password" p1,
      Or.inl (lookupField_setField_self _ "password" p1), ?_⟩
    intro k hk
    rw [lookupField_setField_ne _ "password" p1 k hk,
      lookupField_setField_ne _ "password" p2 k hk]

/-- C3 witness: both serial orders on a concrete record end with one of
the two submitted passwords and the username intact. -/
theorem updatePassword_concurrent_no_merge_witness :
    (updatePasswordHandler ⟨[⟨"v1", "app_a", [("username", "u"), ("password", "p")], 0, 0⟩],
        []⟩ "v1" "app_a" "x1" 1 none).1 = .success ∧
    (updatePasswordHandler (updatePasswordHandler
        ⟨[⟨"v1", "app_a", [("username", "u"), ("password", "p")], 0, 0⟩], []⟩
        "v1" "app_a" "x1" 1 none).2 "v1" "app_a" "x2" 2 none).1 = .success ∧
    ∃ F2,
      (findRow (updatePasswordHandler (updatePasswordHandler
          ⟨[⟨"v1", "app_a", [("username", "u"), ("password", "p")], 0, 0⟩], []⟩
          "v1" "app_a" "x1" 1 none).2 "v1" "app_a" "x2" 2 none).2.creds "v1"
          "app_a").map CredRow.fields = some F2 ∧
      lookupField F2 "password" = some "x2" ∧
      (lookupField F2 "password" = some "x1" ∨ lookupField F2 "password" = some "x2") ∧
      ∀ k, k ≠ "password" →
        lookupField F2 k = lookupField [("username", "u"), ("password", "p")] k :=
  (updatePassword_concurrent_no_merge
    ⟨[⟨"v1", "app_a", [("username", "u"), ("password", "p")], 0, 0⟩], []⟩
    "v1" "app_a" "x1" "x2" 1 2 [("username", "u"), ("password", "p")]
    (by decide) (by decide) (by decide) (by decide) (by decide)).1

/-- C4: a successful write followed by a read returns exactly the written
fields, whether or not a record previously existed at the key. -/
theorem write_read_roundtrip (db : VaultDB) (vid aid : String) (fields : Fields) (now : Nat)
    (hv : isNonEmptyString vid = true) (ha : isNonEmptyString aid = true) :
    (writeHandler db vid aid fields now none).1 = .success ∧
    (readHandler (writeHandler db vid aid fields now none).2 vid aid none).1 =
      .fieldsOk fields := by
  obtain ⟨c, hc⟩ := findRow_upsert_self db.creds vid aid fields now
  constructor
  · simp [writeHandler, hv, ha]
  · simp [writeHandler, readHandler, hv, ha, hc]

/-- C4 witness: a concrete write then read on a database that already held
a row at the key returns the new fields exactly. -/
theorem write_read_roundtrip_witness :
    (writeHandler ⟨[⟨"v1", "app_a", [("username", "old")], 0, 0⟩], []⟩ "v1" "app_a"
        [("username", "u"), ("password", "p"), ("role", "admin")] 3 none).1 = .success ∧
    (readHandler (writeHandler ⟨[⟨"v1", "app_a", [("username", "old")], 0, 0⟩], []⟩ "v1"
        "app_a" [("username", "u"), ("password", "p"), ("role", "admin")] 3 none).2 "v1"
        "app_a" none).1 =
      .fieldsOk [("username", "u"), ("password", "p"), ("role", "admin")] :=
  write_read_roundtrip ⟨[⟨"v1", "app_a", [("username", "old")], 0, 0⟩], []⟩ "v1" "app_a"
    [("username", "u"), ("password", "p"), ("role", "admin")] 3 (by decide) (by decide)

/-- C5: delete-vault removes every record carrying the vault id and no
record of any other vault id, returns the count of removed records, makes
every subsequent read on a key of that vault answer NotFound, and appends
one audit entry with the sentinel app_id star meaning all. -/
theorem deleteVault_removes_exactly_vault (db : VaultDB) (vid : String)
    (hv : isNonEmptyString vid = true) :
    (deleteVaultHandler db vid none).1 = .successCount (countVault db.creds vid) ∧
    countVault db.creds vid + ((deleteVaultHandler db vid none).2.creds).length =
      db.creds.length ∧
    (∀ c, c ∈ (deleteVaultHandler db vid none).2.creds ↔ c ∈ db.creds ∧ c.vaultId ≠ vid) ∧
    (∀ aid, isNonEmptyString aid = true →
        (readHandler (deleteVaultHandler db vid none).2 vid aid none).1 = .notFound) ∧
    (deleteVaultHandler db vid none).2.audit = db.audit ++ [⟨vid, "*", "delete-vault"⟩] := by
  refine ⟨?_, ?_, ?_, ?_, ?_⟩
  · simp [deleteVaultHandler, hv]
  · simp only [deleteVaultHandler, hv, Bool.not_true, Bool.false_eq_true, if_false]
    simpa using countVault_add_length db.creds vid
  · intro c
    simpa [deleteVaultHandler, hv] using mem_removeVault db.creds vid c
  · intro aid haid
    simp [deleteVaultHandler, hv, readHandler, haid, findRow_removeVault]
  · simp [deleteVaultHandler, hv]

/-- C5 witness: with two vaults in the store, delete-vault on v1 removes
both v1 rows, keeps the v2 row, reports count 2, and a read of a deleted
key answers NotFound. -/
theorem deleteVault_removes_exactly_vault_witness :
    (deleteVaultHandler ⟨[⟨"v1", "app_a", [("username", "u")], 0, 0⟩,
        ⟨"v2", "app_a", [("username", "w")], 0, 0⟩,
        ⟨"v1", "app_b", [("username", "u")], 0, 0⟩], []⟩ "v1" none).1 = .successCount 2 ∧
    (readHandler (deleteVaultHandler ⟨[⟨"v1", "app_a", [("username", "u")], 0, 0⟩,
        ⟨"v2", "app_a", [("username", "w")], 0, 0⟩,
        ⟨"v1", "app_b", [("username", "u")], 0, 0⟩], []⟩ "v1" none).2 "v1" "app_a"
        none).1 = .notFound ∧
    (⟨"v2", "app_a", [("username", "w")], 0, 0⟩ : CredRow) ∈
      (deleteVaultHandler ⟨[⟨"v1", "app_a", [("username", "u")], 0, 0⟩,
        ⟨"v2", "app_a", [("username", "w")], 0, 0⟩,
        ⟨"v1", "app_b", [("username", "u")], 0, 0⟩], []⟩ "v1" none).2.creds := by
  have h := deleteVault_removes_exactly_vault ⟨[⟨"v1", "app_a", [("username", "u")], 0, 0⟩,
    ⟨"v2", "app_a", [("username", "w")], 0, 0⟩,
    ⟨"v1", "app_b", [("username", "u")], 0, 0⟩], []⟩ "v1" (by decide)
  refine ⟨?_, h.2.2.2.1 "app_a" (by decide), ?_⟩
  · have h1 := h.1
    simpa using h1
  · exact (h.2.2.1 _).mpr (by decide)

/-! ## Audit discipline of the handlers (for C6) -/

theorem readHandler_audit (db : VaultDB) (v a : String) (fa : Option Nat) :
    (respSuccess (readHandler db v a fa).1 = true →
        (readHandler db v a fa).2.audit = db.audit ++ [⟨v, a, "read"⟩]) ∧
    (respSuccess (readHandler db v a fa).1 = false →
        (readHandler db v a fa).2.audit = db.audit) := by
  cases hab : (isNonEmptyString v && isNonEmptyString a) with
  | false => simp [readHandler, hab, respSuccess]
  | true =>
      by_cases h0 : fa = some 0
      · simp [readHandler, hab, h0, respSuccess]
      · cases hf : findRow db.creds v a with
        | none => simp [readHandler, hab, h0, hf, respSuccess]
        | some r =>
            by_cases h1 : fa = some 1
            · simp [readHandler, hab, h0, h1, hf, respSuccess]
            · simp [readHandler, hab, h0, h1, hf, respSuccess]

theorem writeHandler_audit (db : VaultDB) (v a : String) (f : Fields) (t : Nat)
    (fa : Option Nat) :
    (respSuccess (writeHandler db v a f t fa).1 = true →
        (writeHandler db v a f t fa).2.audit = db.audit ++ [⟨v, a, "write"⟩]) ∧
    (respSuccess (writeHandler db v a f t fa).1 = false →
        (writeHandler db v a f t fa).2.audit = db.audit) := by
  cases hab : (isNonEmptyString v && isNonEmptyString a) with
  | false => simp [writeHandler, hab, respSuccess]
  | true =>
      by_cases h0 : fa = some 0
      · simp [writeHandler, hab, h0, respSuccess]
      · by_cases h1 : fa = some 1
        · simp [writeHandler, hab, h0, h1, respSuccess]
        · simp [writeHandler, hab, h0, h1, respSuccess]

theorem updatePasswordHandler_audit (db : VaultDB) (v a p : String) (t : Nat)
    (fa : Option Nat) :
    (respSuccess (updatePasswordHandler db v a p t fa).1 = true →
        (updatePasswordHandler db v a p t fa).2.audit = db.audit ++ [⟨v, a, "update"⟩]) ∧
    (respSuccess (updatePasswordHandler db v a p t fa).1 = false →
        (updatePasswordHandler db v a p t fa).2 = db) := by
  cases hab : (isNonEmptyString v && isNonEmptyString a && isNonEmptyString p) with
  | false => simp [updatePasswordHandler, hab, respSuccess]
  | true =>
      by_cases h0 : fa = some 0
      · simp [updatePasswordHandler, hab, h0, respSuccess]
      · by_cases h1 : fa = some 1
        · simp [updatePasswordHandler, hab, h0, h1, respSuccess]
        · cases hf : findRow db.creds v a with
          | none => simp [updatePasswordHandler, hab, h0, h1, hf, respSuccess]
          | some r =>
              by_cases h2 : fa = some 2
              · simp [updatePasswordHandler, hab, h0, h1, h2, hf, respSuccess]
              · by_cases h3 : fa = some 3
                · simp [updatePasswordHandler, hab, h0, h1, h2, h3, hf, respSuccess]
                · by_cases h4 : fa = some 4
                  · simp [updatePasswordHandler, hab, h0, h1, h2, h3, h4, hf, respSuccess]
                  · simp [updatePasswordHandler, hab, h0, h1, h2, h3, h4, hf, respSuccess]

theorem deleteHandler_audit (db : VaultDB) (v a : String) (fa : Option Nat) :
    (respSuccess (deleteHandler db v a fa).1 = true →
        (deleteHandler db v a fa).2.audit = db.audit ++ [⟨v, a, "delete"⟩]) ∧
    (respSuccess (deleteHandler db v a fa).1 = false →
        (deleteHandler db v a fa).2.audit = db.audit) := by
  cases hab : (isNonEmptyString v && isNonEmptyString a) with
  | false => simp [deleteHandler, hab, respSuccess]
  | true =>
      by_cases h0 : fa = some 0
      · simp [deleteHandler, hab, h0, respSuccess]
      · cases hf : findRow db.creds v a with
        | none => simp [deleteHandler, hab, h0, hf, respSuccess]
        | some r =>
            by_cases h1 : fa = some 1
            · simp [deleteHandler, hab, h0, h1, hf, respSuccess]
            · simp [deleteHandler, hab, h0, h1, hf, respSuccess]

theorem deleteVaultHandler_audit (db : VaultDB) (v : String) (fa : Option Nat) :
    (respSuccess (deleteVaultHandler db v fa).1 = true →
        (deleteVaultHandler db v fa).2.audit = db.audit ++ [⟨v, "*", "delete-vault"⟩]) ∧
    (respSuccess (deleteVaultHandler db v fa).1 = false →
        (deleteVaultHandler db v fa).2.audit = db.audit) := by
  cases hab : isNonEmptyString v with
  | false => simp [deleteVaultHandler, hab, respSuccess]
  | true =>
      by_cases h0 : fa = some 0
      · simp [deleteVaultHandler, hab, h0, respSuccess]
      · by_cases h1 : fa = some 1
        · simp [deleteVaultHandler, hab, h0, h1, respSuccess]
        · simp [deleteVaultHandler, hab, h0, h1, respSuccess]

/-- C6 (amended): under every failure pattern, a successful Vault
operation appends exactly one audit entry carrying the matching action
tag and a failed operation (NotFound, validation, or storage error)
appends none; only updatePassword writes its entry in the same unit of
work as the operation, every one of its failures leaving the whole
database unchanged, while the other handlers issue the audit INSERT as a
separate statement after the operation. -/
theorem vault_audit_discipline (db : VaultDB) (op : VaultOp) (failAt : Option Nat) :
    (respSuccess (runOp db op failAt).1 = true →
        (runOp db op failAt).2.audit = db.audit ++ [opAuditEntry op]) ∧
    (respSuccess (runOp db op failAt).1 = false →
        (runOp db op failAt).2.audit = db.audit) ∧
    (∀ v a p t, op = VaultOp.updatePasswordOp v a p t →
        respSuccess (runOp db op failAt).1 = false → (runOp db op failAt).2 = db) := by
  cases op with
  | readOp v a =>
      obtain ⟨hs, hf⟩ := readHandler_audit db v a failAt
      exact ⟨hs, hf, fun v1 a1 p1 t1 h => by simp at h⟩
  | writeOp v a f t =>
      obtain ⟨hs, hf⟩ := writeHandler_audit db v a f t failAt
      exact ⟨hs, hf, fun v1 a1 p1 t1 h => by simp at h⟩
  | updatePasswordOp v a p t =>
      obtain ⟨hs, hf⟩ := updatePasswordHandler_audit db v a p t failAt
      exact ⟨hs, fun hx => by rw [show (runOp db (VaultOp.updatePasswordOp v a p t) failAt).2 =
          db from hf hx], fun v1 a1 p1 t1 _ hx => hf hx⟩
  | deleteOp v a =>
      obtain ⟨hs, hf⟩ := deleteHandler_audit db v a failAt
      exact ⟨hs, hf, fun v1 a1 p1 t1 h => by simp at h⟩
  | deleteVaultOp v =>
      obtain ⟨hs, hf⟩ := deleteVaultHandler_audit db v failAt
      exact ⟨hs, hf, fun v1 a1 p1 t1 h => by simp at h⟩

/-- C6 witness: a failure-free write on an empty store appends exactly the
matching audit entry. -/
theorem vault_audit_discipline_witness :
    (runOp ⟨[], []⟩ (.writeOp "v1" "app_a" [("username", "u")] 5) none).2.audit =
      [] ++ [⟨"v1", "app_a", "write"⟩] :=
  (vault_audit_discipline ⟨[], []⟩ (.writeOp "v1" "app_a" [("username", "u")] 5) none).1
    (by decide)

/-- C6 counterexample: when the audit INSERT of the write handler fails,
the handler reports an internal error, yet the credential upsert has
persisted and no audit entry exists; the audit entry is therefore not
written in the same unit of work as the operation it records. -/
theorem write_audit_separate_statement_counterexample :
    respSuccess (runOp ⟨[], []⟩ (.writeOp "v1" "app_a" [("username", "u")] 5) (some 1)).1 =
      false ∧
    (runOp ⟨[], []⟩ (.writeOp "v1" "app_a" [("username", "u")] 5) (some 1)).2.creds ≠
      ([] : List CredRow) ∧
    (runOp ⟨[], []⟩ (.writeOp "v1" "app_a" [("username", "u")] 5) (some 1)).2.audit =
      ([] : List AuditEntry) := by
  refine ⟨by decide, by decide, by decide⟩

/-- C2 counterexample: a bootstrap response reporting a different owning
identity (user 2 while user 1 is held) leaves the spec-modelled
per-application verification set exactly as it was, so the coordinator
does not clear the verification set before serving the next call. -/
theorem bootstrap_keeps_verification_set_counterexample :
    (⟨⟨some "tok_old", some 1000, [⟨"app_a", "http://localhost:3001", none⟩], some 1,
        some "alice"⟩, ["app_a"]⟩ : ExtensionState).bg.currentUserId = some 1 ∧
    (⟨"tok_new", 3600, 2, "bob", []⟩ : BootstrapData).userId ≠ 1 ∧
    ¬ (bootstrapExt ⟨⟨some "tok_old", some 1000,
        [⟨"app_a", "http://localhost:3001", none⟩], some 1, some "alice"⟩, ["app_a"]⟩
        ⟨"tok_new", 3600, 2, "bob", []⟩ 0).verifiedApps = [] := by
  refine ⟨rfl, by decide, by decide⟩

/-- C2 (amended): when a bootstrap response reports an owning identity
different from the one held, the coordinator discards the held token,
expiry, application list and identity, installing those of the response
before serving the next call, so every subsequent credential fetch
carries the new identity token and nothing fetched afterwards can use the
previous identity token; the per-application verification set
(spec-modelled, unimplemented in the code) is carried over unchanged
rather than cleared. -/
theorem bootstrap_identity_switch_resets_session (st : ExtensionState) (data : BootstrapData)
    (now : Nat) (hheld : st.bg.currentUserId ≠ none)
    (hdiff : st.bg.currentUserId ≠ some data.userId) :
    (bootstrapExt st data now).bg.pluginToken = some data.pluginToken ∧
    (bootstrapExt st data now).bg.expiresAt = some (now + data.expiresIn * 1000) ∧
    (bootstrapExt st data now).bg.apps = data.apps ∧
    (bootstrapExt st data now).bg.currentUserId = some data.userId ∧
    (bootstrapExt st data now).bg.currentUsername = some data.username ∧
    fetchAuthHeader (bootstrapExt st data now).bg = some ("Bearer " ++ data.pluginToken) ∧
    (bootstrapExt st data now).verifiedApps = st.verifiedApps := by
  refine ⟨rfl, rfl, rfl, rfl, rfl, rfl, rfl⟩

/-- C2 witness: a concrete identity switch from user 1 to user 2 installs
the new token (so the next fetch authenticates as user 2) and keeps the
verification set. -/
theorem bootstrap_identity_switch_resets_session_witness :
    (bootstrapExt ⟨⟨some "tok_old", some 1000, [], some 1, some "alice"⟩, ["app_a"]⟩
        ⟨"tok_new", 3600, 2, "bob", [⟨"app_b", "http://localhost:3002", none⟩]⟩ 7).bg.pluginToken =
      some "tok_new" ∧
    fetchAuthHeader (bootstrapExt ⟨⟨some "tok_old", some 1000, [], some 1, some "alice"⟩,
        ["app_a"]⟩ ⟨"tok_new", 3600, 2, "bob", [⟨"app_b", "http://localhost:3002", none⟩]⟩
        7).bg = some ("Bearer " ++ "tok_new") ∧
    (bootstrapExt ⟨⟨some "tok_old", some 1000, [], some 1, some "alice"⟩, ["app_a"]⟩
        ⟨"tok_new", 3600, 2, "bob", [⟨"app_b", "http://localhost:3002", none⟩]⟩ 7).verifiedApps =
      ["app_a"] := by
  have h := bootstrap_identity_switch_resets_session
    ⟨⟨some "tok_old", some 1000, [], some 1, some "alice"⟩, ["app_a"]⟩
    ⟨"tok_new", 3600, 2, "bob", [⟨"app_b", "http://localhost:3002", none⟩]⟩ 7
    (by decide) (by decide)
  exact ⟨h.1, h.2.2.2.2.2.1, h.2.2.2.2.2.2⟩

/-- C8: deleting an owning identity invokes the Vault delete-vault cascade
for the identity vault id first; when that call fails (network failure or
any vault-side error) the deletion itself fails and none of the local
rows of the identity (users, user_apps, plugin_tokens) is removed; when
it succeeds, the vault records of the vault id and all local rows of the
identity are removed. -/
theorem deleteUser_cascade_before_local (d : PidDb2) (vdb : VaultDB) (id : Nat)
    (u : UserRow2) (vid : String)
    (hu : findUserById2 d id = some u) (hrole : u.role ≠ "admin")
    (hvid : u.vaultId = some vid) (hv : isNonEmptyString vid = true) :
    (∀ netOk failAt, (deleteVaultCall vdb vid netOk failAt).1 = false →
        (deleteUser d vdb id netOk failAt).1 = .errD "Failed to delete vault credentials" ∧
        (deleteUser d vdb id netOk failAt).2.1 = d) ∧
    ((deleteUser d vdb id true none).1 = .okD ∧
     (∀ c, c ∈ (deleteUser d vdb id true none).2.2.creds → c.vaultId ≠ vid) ∧
     (∀ u2, u2 ∈ (deleteUser d vdb id true none).2.1.users → u2.id ≠ id) ∧
     (∀ m, m ∈ (deleteUser d vdb id true none).2.1.userApps → m.1 ≠ id) ∧
     (∀ t2, t2 ∈ (deleteUser d vdb id true none).2.1.pluginTokens → t2.userId ≠ id)) := by
  have hgv : getVaultId d id = some vid := by simp [getVaultId, hu, hvid]
  have hadm : (u.role == "admin") = false := by
    simp only [beq_eq_false_iff_ne, ne_eq]
    exact hrole
  constructor
  · intro netOk failAt hcall
    rcases hc : deleteVaultCall vdb vid netOk failAt with ⟨b, vdb1⟩
    rw [hc] at hcall
    simp at hcall
    subst hcall
    constructor <;> simp [deleteUser, hu, hadm, hgv, hc]
  · refine ⟨?_, ?_, ?_, ?_, ?_⟩
    · simp [deleteUser, hu, hadm, hgv, deleteVaultCall, deleteVaultHandler, hv]
    · intro c hcmem
      simp [deleteUser, hu, hadm, hgv, deleteVaultCall, deleteVaultHandler, hv] at hcmem
      exact ((mem_removeVault vdb.creds vid c).mp hcmem).2
    · intro u2 hmem
      simp [deleteUser, hu, hadm, hgv, deleteVaultCall, deleteVaultHandler, hv,
        localDeleteUserRows, List.mem_filter] at hmem
      exact hmem.2
    · intro m hmem
      simp [deleteUser, hu, hadm, hgv, deleteVaultCall, deleteVaultHandler, hv,
        localDeleteUserRows, List.mem_filter] at hmem
      exact hmem.2
    · intro t2 hmem
      simp [deleteUser, hu, hadm, hgv, deleteVaultCall, deleteVaultHandler, hv,
        localDeleteUserRows, List.mem_filter] at hmem
      exact hmem.2

/-- C8 witness: on the demonstration databases, a failing cascade call
(network down) aborts the deletion with the local rows intact, and the
successful run deletes user 2 together with its vault records. -/
theorem deleteUser_cascade_before_local_witness :
    ((deleteUser pid2Demo vdbDemo 2 false none).1 =
        .errD "Failed to delete vault credentials" ∧
      (deleteUser pid2Demo vdbDemo 2 false none).2.1 = pid2Demo) ∧
    (deleteUser pid2Demo vdbDemo 2 true none).1 = .okD := by
  have h := deleteUser_cascade_before_local pid2Demo vdbDemo 2
    ⟨2, "testuser", "user", some "vault_2"⟩ "vault_2" (by decide) (by decide) (by decide)
    (by decide)
  exact ⟨h.1 false none (by decide), h.2.1⟩

/-- The token table is untouched by introspection except when the result
is inactive (only the expiry branch deletes a row). -/
theorem introspectToken_snd_cases (d : PidDb) (tok : String) (now : Nat) :
    (introspectToken d tok now).2 = d ∨
      ∃ e, (introspectToken d tok now).1 = .inactive e := by
  unfold introspectToken
  cases d.pluginTokens.find? (fun r => r.token == tok) with
  | none => exact Or.inr ⟨"Token not found", rfl⟩
  | some row =>
      by_cases hexp : row.expiresAt < now
      · exact Or.inr ⟨"Token expired", by simp [hexp]⟩
      · cases hu : findUserById d row.userId with
        | none => exact Or.inr ⟨"User not found", by simp [hexp, hu]⟩
        | some u => exact Or.inl (by simp [hexp, hu])

/-- C7: on every delegated credential call the proxy validates the bearer
token and its expiry before anything else (a missing header, an unknown
token or an expired token is refused with 401 and the vault credential
table is never consulted); it then checks that the token identity is
authorized for the requested application, denying with 403 before any
vault lookup; and when the lookup finds no record it answers 404, which
the coordinator translates into a needsLearning response rather than an
error. -/
theorem proxy_validate_authorize_then_read (d : PidDb) (hdr : Option String)
    (aid : Option String) (now : Nat) :
    (bearerToken hdr = none →
        (getCredentialsHandler d hdr aid now).resp =
          .unauthorized "Missing or invalid Authorization header" ∧
        (getCredentialsHandler d hdr aid now).vaultConsulted = false) ∧
    (∀ tok e, bearerToken hdr = some tok → (introspectToken d tok now).1 = .inactive e →
        (getCredentialsHandler d hdr aid now).resp = .unauthorized e ∧
        (getCredentialsHandler d hdr aid now).vaultConsulted = false) ∧
    (∀ tok row, bearerToken hdr = some tok →
        d.pluginTokens.find? (fun r => r.token == tok) = some row →
        row.expiresAt < now →
        (getCredentialsHandler d hdr aid now).resp = .unauthorized "Token expired" ∧
        (getCredentialsHandler d hdr aid now).vaultConsulted = false) ∧
    (∀ tok uid un scopes appId, bearerToken hdr = some tok →
        (introspectToken d tok now).1 = .active uid un scopes →
        aid = some appId → appId ≠ "" →
        isUserAllowedApp d uid appId = false →
        (getCredentialsHandler d hdr aid now).resp =
          .forbidden "User not authorized for this app" ∧
        (getCredentialsHandler d hdr aid now).vaultConsulted = false) ∧
    (∀ tok uid un scopes appId, bearerToken hdr = some tok →
        (introspectToken d tok now).1 = .active uid un scopes →
        aid = some appId → appId ≠ "" →
        isUserAllowedApp d uid appId = true →
        "vault:read" ∈ scopes →
        getVaultCredentials d uid appId = none →
        (getCredentialsHandler d hdr aid now).resp =
          .notFoundA "No credentials found for this app" ∧
        (getCredentialsHandler d hdr aid now).vaultConsulted = true ∧
        ∀ schema, bgHandleGetCredentials (getCredentialsHandler d hdr aid now).resp schema =
          ⟨false, true, none, schema⟩) := by
  refine ⟨?_, ?_, ?_, ?_, ?_⟩
  · intro hb
    simp [getCredentialsHandler, hb]
  · intro tok e hb hint
    rcases hip : introspectToken d tok now with ⟨res, d1⟩
    rw [hip] at hint
    simp at hint
    subst hint
    simp [getCredentialsHandler, hb, hip]
  · intro tok row hb hrow hexp
    have hip : introspectToken d tok now =
        (.inactive "Token expired",
         { d with pluginTokens := d.pluginTokens.filter fun r => !(r.token == tok) }) := by
      simp [introspectToken, hrow, hexp]
    simp [getCredentialsHandler, hb, hip]
  · intro tok uid un scopes appId hb hint haid hne hnal
    have hsnd : (introspectToken d tok now).2 = d := by
      rcases introspectToken_snd_cases d tok now with h2 | ⟨e, h2⟩
      · exact h2
      · rw [hint] at h2
        exact Introspection.noConfusion h2
    have hip2 : introspectToken d tok now = (.active uid un scopes, d) :=
      Prod.ext_iff.mpr ⟨hint, hsnd⟩
    simp [getCredentialsHandler, hb, hip2, haid, hne, hnal]
  · intro tok uid un scopes appId hb hint haid hne hal hsc hnone
    have hsnd : (introspectToken d tok now).2 = d := by
      rcases introspectToken_snd_cases d tok now with h2 | ⟨e, h2⟩
      · exact h2
      · rw [hint] at h2
        exact Introspection.noConfusion h2
    have hip2 : introspectToken d tok now = (.active uid un scopes, d) :=
      Prod.ext_iff.mpr ⟨hint, hsnd⟩
    have hresp : (getCredentialsHandler d hdr aid now).resp =
        .notFoundA "No credentials found for this app" := by
      simp [getCredentialsHandler, hb, hip2, haid, hne, hal, hsc, hnone]
    refine ⟨hresp, ?_, ?_⟩
    · simp [getCredentialsHandler, hb, hip2, haid, hne, hal, hsc, hnone]
    · intro schema
      rw [hresp]
      simp [bgHandleGetCredentials, fetchCredentialsResult]

/-- C7 witness: on the demonstration database a live token for an
authorized app with no stored credential yields the 404 outcome after the
vault was consulted, and the coordinator turns it into needsLearning. -/
theorem proxy_validate_authorize_then_read_witness :
    (getCredentialsHandler pidDemo (some "Bearer ptk_x") (some "app_a") 5).resp =
      .notFoundA "No credentials found for this app" ∧
    (getCredentialsHandler pidDemo (some "Bearer ptk_x") (some "app_a") 5).vaultConsulted =
      true ∧
    bgHandleGetCredentials
        (getCredentialsHandler pidDemo (some "Bearer ptk_x") (some "app_a") 5).resp none =
      ⟨false, true, none, none⟩ := by
  have h := (proxy_validate_authorize_then_read pidDemo (some "Bearer ptk_x") (some "app_a")
      5).2.2.2.2 "ptk_x" 1 "testuser" ["vault:read", "vault:write"] "app_a"
    (by decide) (by decide) rfl (by decide) (by decide) (by decide) (by decide)
  exact ⟨h.1, h.2.1, h.2.2 none⟩

/-! ## Lemmas about the Page Agent markers -/

/-- The password-change success check touches only the pwdChange slot. -/
theorem checkPasswordChangeSuccess_store (o : String) (s : MarkerStore) (b c : Bool) :
    ((checkPasswordChangeSuccess o s b c).1).learning = s.learning ∧
    ((checkPasswordChangeSuccess o s b c).1).schemaMarker = s.schemaMarker ∧
    ((checkPasswordChangeSuccess o s b c).1).autoLoginAttempt = s.autoLoginAttempt := by
  unfold checkPasswordChangeSuccess
  cases hg : getPasswordChangeData s o with
  | none => simp [hg]
  | some data => cases b <;> cases c <;> simp [hg]

/-- A learning capture the accessor returns was stored for that origin. -/
theorem getLearningCredentials_eq_some (s : MarkerStore) (o : String) (p : LearningCapture)
    (h : getLearningCredentials s o = some p) : s.learning = some p ∧ p.origin = o := by
  unfold getLearningCredentials at h
  cases hl : s.learning with
  | none => simp [hl] at h
  | some parsed =>
      rw [hl] at h
      by_cases ho : parsed.origin = o
      · simp [ho] at h
        subst h
        exact ⟨rfl, ho⟩
      · simp [ho] at h

/-- A password-change capture the accessor returns was stored for that
origin. -/
theorem getPasswordChangeData_eq_some (s : MarkerStore) (o : String) (p : PwdChangeCapture)
    (h : getPasswordChangeData s o = some p) : s.pwdChange = some p ∧ p.origin = o := by
  unfold getPasswordChangeData at h
  cases hl : s.pwdChange with
  | none => simp [hl] at h
  | some parsed =>
      rw [hl] at h
      by_cases ho : parsed.origin = o
      · simp [ho] at h
        subst h
        exact ⟨rfl, ho⟩
      · simp [ho] at h

/-- Fields forwarded to the save path come from a same-origin capture. -/
theorem checkLearningSuccess_sentSave (o : String) (s : MarkerStore) (b c : Bool) (f : Fields)
    (h : (checkLearningSuccess o s b c).2 = some f) :
    ∃ p, s.learning = some p ∧ p.origin = o ∧ f = p.fields := by
  unfold checkLearningSuccess at h
  cases hg : getLearningCredentials s o with
  | none => simp [hg] at h
  | some captured =>
      obtain ⟨hl, ho⟩ := getLearningCredentials_eq_some s o captured hg
      refine ⟨captured, hl, ho, ?_⟩
      rw [hg] at h
      cases b with
      | true => simp at h
      | false =>
          cases c with
          | true =>
              simp at h
              exact h.symm
          | false => simp at h

/-- A password forwarded to the update path comes from a same-origin
capture. -/
theorem checkPasswordChangeSuccess_sentUpdate (o : String) (s : MarkerStore) (b c : Bool)
    (pw : String) (h : (checkPasswordChangeSuccess o s b c).2 = some pw) :
    ∃ p, s.pwdChange = some p ∧ p.origin = o ∧ pw = p.newPassword := by
  unfold checkPasswordChangeSuccess at h
  cases hg : getPasswordChangeData s o with
  | none => simp [hg] at h
  | some data =>
      obtain ⟨hl, ho⟩ := getPasswordChangeData_eq_some s o data hg
      refine ⟨data, hl, ho, ?_⟩
      rw [hg] at h
      cases b with
      | true => simp at h
      | false =>
          cases c with
          | true =>
              simp at h
              exact h.symm
          | false => simp at h

/-- In every branch of the main flow the update message is the one the
password-change success check produced. -/
theorem agentMain_sentUpdate (env : PageEnv) :
    (agentMain env).sentUpdate =
      (checkPasswordChangeSuccess env.currentOrigin env.store env.hasPwdChangeForm
        env.consentUpdate).2 := by
  cases hpwd : env.hasPwdChangeForm with
  | true => simp [agentMain, hpwd]
  | false =>
      cases hlog : env.hasLoginForm with
      | false => simp [agentMain, hpwd, hlog]
      | true =>
          cases hsucc : env.bgResponse.success with
          | false =>
              cases hneed : env.bgResponse.needsLearning with
              | true => simp [agentMain, hpwd, hlog, hsucc, hneed]
              | false => simp [agentMain, hpwd, hlog, hsucc, hneed]
          | true =>
              by_cases h2 : env.promptChoice = some "2"
              · simp [agentMain, hpwd, hlog, hsucc, h2]
              · by_cases h3 : env.promptChoice = some "3"
                · simp [agentMain, hpwd, hlog, hsucc, h2, h3]
                · simp [agentMain, hpwd, hlog, hsucc, h2, h3]

/-- A save message is produced only on the branch with no password-change
form and no login form, by the learning success check over the marker
store left by the password-change check. -/
theorem agentMain_sentSave (env : PageEnv) (f : Fields)
    (h : (agentMain env).sentSave = some f) :
    (checkLearningSuccess env.currentOrigin
        (checkPasswordChangeSuccess env.currentOrigin env.store env.hasPwdChangeForm
          env.consentUpdate).1 env.hasLoginForm env.consentSave).2 = some f := by
  cases hpwd : env.hasPwdChangeForm with
  | true => simp [agentMain, hpwd] at h
  | false =>
      cases hlog : env.hasLoginForm with
      | false =>
          simp only [agentMain, hpwd, hlog] at h
          simpa [hpwd, hlog] using h
      | true =>
          cases hsucc : env.bgResponse.success with
          | false =>
              cases hneed : env.bgResponse.needsLearning with
              | true => simp [agentMain, hpwd, hlog, hsucc, hneed] at h
              | false => simp [agentMain, hpwd, hlog, hsucc, hneed] at h
          | true =>
              by_cases h2 : env.promptChoice = some "2"
              · simp [agentMain, hpwd, hlog, hsucc, h2] at h
              · by_cases h3 : env.promptChoice = some "3"
                · simp [agentMain, hpwd, hlog, hsucc, h2, h3] at h
                · simp [agentMain, hpwd, hlog, hsucc, h2, h3] at h

/-- C9 counterexample: with stored credentials, an empty marker store and
the user answering 1, the agent fills and submits the login form while
the marker store after the run is exactly the store before it — in
particular no AutoLoginAttemptFlag is set before submitting. -/
theorem silent_replay_sets_no_flag_counterexample :
    (agentMain ⟨"http://localhost:3001", ⟨none, none, none, none⟩, false, true,
        ⟨true, false, some [("username", "u"), ("password", "p")], none⟩, some "1", false,
        false⟩).submitted = true ∧
    (agentMain ⟨"http://localhost:3001", ⟨none, none, none, none⟩, false, true,
        ⟨true, false, some [("username", "u"), ("password", "p")], none⟩, some "1", false,
        false⟩).store.autoLoginAttempt = none ∧
    (agentMain ⟨"http://localhost:3001", ⟨none, none, none, none⟩, false, true,
        ⟨true, false, some [("username", "u"), ("password", "p")], none⟩, some "1", false,
        false⟩).store = ⟨none, none, none, none⟩ := by
  refine ⟨by decide, by decide, by decide⟩

/-- C9 (amended): the Page Agent maintains no AutoLoginAttemptFlag; every
run that fills and submits stored credentials has first shown the user
the auto-login / manual / update prompt on that very page load, and
leaves the (spec-modelled) flag slot untouched, so no replay — first or
repeated — is submitted without a fresh user decision. -/
theorem replay_requires_fresh_user_decision (env : PageEnv)
    (h : (agentMain env).submitted = true) :
    (agentMain env).prompted = true ∧
    (agentMain env).store.autoLoginAttempt = env.store.autoLoginAttempt := by
  cases hpwd : env.hasPwdChangeForm with
  | true => simp [agentMain, hpwd] at h
  | false =>
      cases hlog : env.hasLoginForm with
      | false => simp [agentMain, hpwd, hlog] at h
      | true =>
          cases hsucc : env.bgResponse.success with
          | false =>
              cases hneed : env.bgResponse.needsLearning with
              | true => simp [agentMain, hpwd, hlog, hsucc, hneed] at h
              | false => simp [agentMain, hpwd, hlog, hsucc, hneed] at h
          | true =>
              by_cases h2 : env.promptChoice = some "2"
              · simp [agentMain, hpwd, hlog, hsucc, h2] at h
              · by_cases h3 : env.promptChoice = some "3"
                · simp [agentMain, hpwd, hlog, hsucc, h2, h3] at h
                · constructor
                  · simp [agentMain, hpwd, hlog, hsucc, h2, h3]
                  · simp only [agentMain, hpwd, hlog, hsucc, h2, h3]
                    simp [hpwd, hlog, hsucc, h2, h3]
                    exact (checkPasswordChangeSuccess_store env.currentOrigin env.store
                      false env.consentUpdate).2.2

/-- C9 witness: the run of the counterexample environment indeed prompted
the user before its submit and left the flag slot unchanged. -/
theorem replay_requires_fresh_user_decision_witness :
    (agentMain ⟨"http://localhost:3001", ⟨none, none, none, none⟩, false, true,
        ⟨true, false, some [("username", "u"), ("password", "p")], none⟩, some "1", false,
        false⟩).prompted = true ∧
    (agentMain ⟨"http://localhost:3001", ⟨none, none, none, none⟩, false, true,
        ⟨true, false, some [("username", "u"), ("password", "p")], none⟩, some "1", false,
        false⟩).store.autoLoginAttempt = none := by
  have h := replay_requires_fresh_user_decision ⟨"http://localhost:3001",
    ⟨none, none, none, none⟩, false, true,
    ⟨true, false, some [("username", "u"), ("password", "p")], none⟩, some "1", false,
    false⟩ (by decide)
  exact ⟨h.1, h.2.trans rfl⟩

/-- C10: the page-scoped capture markers are readable only on the origin
that wrote them — both accessors return null when the stored origin
differs from the current one — and consequently any capture the main flow
forwards to the save or the update path was stored for the current origin
of the page. -/
theorem markers_are_origin_scoped (env : PageEnv) :
    (∀ p, env.store.learning = some p → p.origin ≠ env.currentOrigin →
        getLearningCredentials env.store env.currentOrigin = none) ∧
    (∀ p, env.store.pwdChange = some p → p.origin ≠ env.currentOrigin →
        getPasswordChangeData env.store env.currentOrigin = none) ∧
    (∀ f, (agentMain env).sentSave = some f →
        ∃ p, env.store.learning = some p ∧ p.origin = env.currentOrigin ∧ f = p.fields) ∧
    (∀ pw, (agentMain env).sentUpdate = some pw →
        ∃ p, env.store.pwdChange = some p ∧ p.origin = env.currentOrigin ∧
          pw = p.newPassword) := by
  refine ⟨?_, ?_, ?_, ?_⟩
  · intro p hp hne
    simp [getLearningCredentials, hp, hne]
  · intro p hp hne
    simp [getPasswordChangeData, hp, hne]
  · intro f hf
    have h1 := agentMain_sentSave env f hf
    obtain ⟨p, hl, ho, hfp⟩ := checkLearningSuccess_sentSave env.currentOrigin _
      env.hasLoginForm env.consentSave f h1
    rw [(checkPasswordChangeSuccess_store env.currentOrigin env.store env.hasPwdChangeForm
      env.consentUpdate).1] at hl
    exact ⟨p, hl, ho, hfp⟩
  · intro pw hpw
    have h1 := (agentMain_sentUpdate env).symm.trans hpw
    exact checkPasswordChangeSuccess_sentUpdate env.currentOrigin env.store
      env.hasPwdChangeForm env.consentUpdate pw h1

/-- C10 witness: a learning capture and a password-change capture stored
for one origin are invisible to the accessors on a different origin. -/
theorem markers_are_origin_scoped_witness :
    getLearningCredentials ⟨some ⟨[("username", "u"), ("password", "p")],
        "http://localhost:3001"⟩, none, none, none⟩ "http://localhost:3002" = none ∧
    getPasswordChangeData ⟨none, none, some ⟨"npw", "http://localhost:3001"⟩, none⟩
        "http://localhost:3002" = none := by
  constructor
  · exact (markers_are_origin_scoped ⟨"http://localhost:3002",
      ⟨some ⟨[("username", "u"), ("password", "p")], "http://localhost:3001"⟩, none, none,
        none⟩, false, false, ⟨false, false, none, none⟩, none, false, false⟩).1
      ⟨[("username", "u"), ("password", "p")], "http://localhost:3001"⟩ rfl (by decide)
  · exact (markers_are_origin_scoped ⟨"http://localhost:3002",
      ⟨none, none, some ⟨"npw", "http://localhost:3001"⟩, none⟩, false, false,
      ⟨false, false, none, none⟩, none, false, false⟩).2.1
      ⟨"npw", "http://localhost:3001"⟩ rfl (by decide)

end SSO
